import Mathlib

/-!
Shallow embedding of the Verbex web-client SDK session controller
(`src/index.ts`, with `src/types.ts` and `src/audioAnalyzer.ts`).

The controller (`VerbexWebClient`) owns five mutable fields
(`isAgentSpeaking`, `audioAnalyzer`, `room`, `connected`,
`captureAudioFrame`), exposes `initiateSession`, `terminateSession`,
`mute`, `unmute`, and reacts to transport signals (room events, data
messages, track subscription, native transcription) and to the
self-scheduled audio-capture tick.  Each operation is embedded as a pure
function from the controller state (plus the data the environment
supplies: permission/connect/publish outcomes, decoded payloads, PCM
frames) to the new state and the ordered list of events emitted during
the call.  Two fields of the state (`ghostSubscribed`,
`ghostAnalyzerOk`) are ghost bookkeeping used only to state invariants;
no operation reads them.
-/

namespace Verbex

/-- JSON values as produced by `JSON.parse` (numbers restricted to
integers; no claim inspects fractional values). -/
inductive Json where
  | null
  | bool (b : Bool)
  | num (n : Int)
  | str (s : String)
  | arr (xs : List Json)
  | obj (fields : List (String × Json))

/-- Property read `obj[key]` on a decoded value: a lookup on objects,
`undefined` (here `none`) on every other non-null value. -/
def fieldsLookup : List (String × Json) → String → Option Json
  | [], _ => none
  | (k, v) :: rest, key => if k = key then some v else fieldsLookup rest key

/-- Property access on a decoded JSON value, for non-null receivers
(JavaScript yields `undefined` for absent keys and for primitive
receivers). -/
def getField (j : Json) (key : String) : Option Json :=
  match j with
  | .obj fields => fieldsLookup fields key
  | _ => none

/-- Property access as the code performs it: accessing a property of
`null` throws a `TypeError` (modelled as `.error ()`), every other
receiver yields `getField`. -/
def readProp (j : Json) (key : String) : Except Unit (Option Json) :=
  match j with
  | .null => .error ()
  | _ => .ok (getField j key)

/-- JavaScript truthiness of a decoded JSON value, as tested by the
`a || b` fallback chains in `bindDataEvents`. -/
def jsTruthy : Json → Bool
  | .null => false
  | .bool b => b
  | .num n => n != 0
  | .str s => s != ""
  | .arr _ => true
  | .obj _ => true

/-- The value of a JavaScript fallback chain `e.k1 || e.k2 || ...`:
the first truthy property, evaluated left to right; the first property
access throws when the receiver is `null`. -/
def firstTruthyE (j : Json) : List String → Except Unit (Option Json)
  | [] => .ok none
  | k :: ks =>
    match readProp j k with
    | .error e => .error e
    | .ok none => firstTruthyE j ks
    | .ok (some v) => if jsTruthy v then .ok (some v) else firstTruthyE j ks

/-- JavaScript `hay.includes(pat)`: substring containment,
case-sensitive. -/
def jsIncludes (hay pat : String) : Bool :=
  decide (pat.toList <:+: hay.toList)

/-- Error causes raised by `initiateSession` (the `Error` values the
code constructs or re-throws). -/
inductive ErrCause where
  | configMissingToken
  | micPermissionDenied
  | micNotFound
  | micNotReadable
  | micOther (name : String)
  | transportConnect (msg : String)
  | micPublish (msg : String)
  | analyzerInit (msg : String)
deriving DecidableEq

/-- One PCM frame handed out by `AudioAnalyzer.getPCMFrame`; its sample
contents are opaque to the controller, so it is modelled as a token. -/
structure AudioFrame where
  id : Nat
deriving DecidableEq

/-- A live `AudioAnalyzer` instance (external collaborator); the
controller only stores, invokes and releases it. -/
structure Analyzer where
  id : Nat
deriving DecidableEq

/-- Canonical events of the typed event bus (`VerbexClientEvents` in
`src/types.ts`), each carrying its payload. -/
inductive VEvent where
  | session_connected
  | session_disconnected
  | microphone_permission_denied (error : ErrCause)
  | agent_speech_started
  | agent_speech_ended
  | transcript_updated (payload : Json)
  | session_metadata (payload : Json)
  | audio_stream (frame : AudioFrame)
  | session_error (cause : ErrCause)
  | connection_lost
  | connection_restored

/-- Session configuration (`SessionConfig` in `src/types.ts`).  The
TypeScript type requires `sessionToken`, but callers may still pass a
missing value, so it is an `Option`; the code tests JavaScript
falsiness (`!config.sessionToken`). -/
structure SessionConfig where
  sessionToken : Option String
  audioSampleRate : Option Nat
  inputDeviceId : Option String
  outputDeviceId : Option String
  enableRawAudio : Option Bool
deriving DecidableEq

/-- Whether `!config.sessionToken` holds: the token is absent or the
empty string. -/
def tokenMissing (cfg : SessionConfig) : Bool :=
  match cfg.sessionToken with
  | none => true
  | some t => t == ""

/-- A LiveKit `Room` the controller created.  The bound event handlers
close over the `SessionConfig` passed to `bindAudioEvents`, so the room
carries it. -/
structure Room where
  cfg : SessionConfig
deriving DecidableEq

/-- The mutable fields of `VerbexWebClient`.  `ghostSubscribed` and
`ghostAnalyzerOk` are ghost bookkeeping (whether a remote audio track
was subscribed in the current session, and whether the last analyzer
initialization attempt succeeded); no operation branches on them. -/
structure ClientState where
  isAgentSpeaking : Bool
  audioAnalyzer : Option Analyzer
  room : Option Room
  connected : Bool
  captureAudioFrame : Option Nat
  ghostSubscribed : Bool
  ghostAnalyzerOk : Bool
deriving DecidableEq

/-- The state of a freshly constructed client. -/
def initialState : ClientState :=
  { isAgentSpeaking := false
    audioAnalyzer := none
    room := none
    connected := false
    captureAudioFrame := none
    ghostSubscribed := false
    ghostAnalyzerOk := false }

/-- `terminateSession()`: remembers `wasConnected`, resets the state
flags, cancels the capture tick, releases the analyzer, drops the room
(disconnect failures swallowed), and emits `session_disconnected` only
if the session was connected at call time. -/
def terminateSession (s : ClientState) : ClientState × List VEvent :=
  let wasConnected := s.connected
  let s1 := { s with
    connected := false
    isAgentSpeaking := false
    captureAudioFrame := none
    audioAnalyzer := none
    room := none }
  (s1, if wasConnected then [.session_disconnected] else [])

/-- Environment outcomes consumed by one `initiateSession` call:
`micPermission` is `some name` when `getUserMedia` rejects with an
error of that name, `connectResult` / `publishResult` are `some msg`
when `room.connect` / `setMicrophoneEnabled` reject. -/
structure InitEnv where
  micPermission : Option String
  connectResult : Option String
  publishResult : Option String
deriving DecidableEq

/-- The outcome of an `initiateSession` call: the state after the call,
the events emitted during it (in order), and the value returned to the
caller (`.error c` models the rejected promise). -/
structure InitOutcome where
  state : ClientState
  events : List VEvent
  result : Except ErrCause Unit

/-- The body of the `try` block of `initiateSession`: teardown of an
existing session, token validation, microphone pre-flight, room
creation and handler binding, transport connect, microphone publish.
Returns the state and events up to the point of success or of the
thrown error (`some cause`). -/
def initiateSessionAux (s : ClientState) (cfg : SessionConfig) (env : InitEnv) :
    ClientState × List VEvent × Option ErrCause :=
  let (s1, evs1) := if s.connected then terminateSession s else (s, [])
  if tokenMissing cfg then
    (s1, evs1, some .configMissingToken)
  else
    match env.micPermission with
    | some name =>
      if name == "NotAllowedError" || name == "PermissionDeniedError" then
        (s1, evs1 ++ [.microphone_permission_denied .micPermissionDenied],
          some .micPermissionDenied)
      else if name == "NotFoundError" then
        (s1, evs1, some .micNotFound)
      else if name == "NotReadableError" then
        (s1, evs1, some .micNotReadable)
      else
        (s1, evs1, some (.micOther name))
    | none =>
      let s2 := { s1 with
        room := some { cfg := cfg }
        ghostSubscribed := false
        ghostAnalyzerOk := false }
      match env.connectResult with
      | some msg => (s2, evs1, some (.transportConnect msg))
      | none =>
        match env.publishResult with
        | some msg => (s2, evs1, some (.micPublish msg))
        | none =>
          ({ s2 with connected := true }, evs1 ++ [.session_connected], none)

/-- `initiateSession(config)`: the `try` body wrapped in the single
catch block that emits `session_error`, runs `terminateSession`, and
re-throws the original cause. -/
def initiateSession (s : ClientState) (cfg : SessionConfig) (env : InitEnv) :
    InitOutcome :=
  match initiateSessionAux s cfg env with
  | (s1, evs, none) => { state := s1, events := evs, result := .ok () }
  | (s1, evs, some c) =>
    let (s2, evs2) := terminateSession s1
    { state := s2
      events := evs ++ [.session_error c] ++ evs2
      result := .error c }

/-- `mute()` / `unmute()`: when connected with a live room they toggle
the microphone publish on the transport (an external side effect);
neither changes the controller state nor emits an event. -/
def muteStep (s : ClientState) : ClientState × List VEvent :=
  (s, [])

/-- The discriminator fallback chain of `bindDataEvents`:
`event.event_type || event.type || event.eventType || event.event`. -/
def dispatchKeys : List String :=
  ["event_type", "type", "eventType", "event"]

/-- The transcript fallback chain of the `update` branch:
`event.transcript || event.transcripts || event.messages`. -/
def entryKeys : List String :=
  ["transcript", "transcripts", "messages"]

/-- The `TranscriptUpdatedPayload` object `{ transcript: entries }`. -/
def mkTranscriptPayload (entries : Json) : Json :=
  .obj [("transcript", entries)]

/-- The interpretation of one successfully parsed data message in
`bindDataEvents`: the discriminator is the first truthy of four field
names, the recognized kinds are dispatched, anything else is ignored;
a `TypeError` raised while reading properties (receiver `null`) lands
in the local catch, which logs and emits nothing. -/
def dataMessageStep (s : ClientState) (j : Json) : ClientState × List VEvent :=
  match firstTruthyE j dispatchKeys with
  | .error _ => (s, [])
  | .ok et =>
    match et with
    | some (.str "metadata") => (s, [.session_metadata j])
    | some (.str "update") =>
      match firstTruthyE j entryKeys with
      | .error _ => (s, [])
      | .ok tr =>
        (s, [.transcript_updated (mkTranscriptPayload (tr.getD (.arr [])))])
    | some (.str "agent_start_talking") =>
      ({ s with isAgentSpeaking := true }, [.agent_speech_started])
    | some (.str "agent_stop_talking") =>
      ({ s with isAgentSpeaking := false }, [.agent_speech_ended])
    | _ => (s, [])

/-- The `DataReceived` handler body: `none` models a payload whose text
decode or `JSON.parse` failed, which returns before interpretation. -/
def handleDataReceived (s : ClientState) (p : Option Json) :
    ClientState × List VEvent :=
  match p with
  | none => (s, [])
  | some j => dataMessageStep s j

/-- One native transcription segment (`TranscriptionSegment` of the
transport). -/
structure TranscriptionSegment where
  id : String
  text : String
  final : Bool
  startTime : Int
  endTime : Int
deriving DecidableEq

/-- Role attribution of the `TranscriptionReceived` handler:
`participant?.identity === "server" || participant?.identity?.includes("agent")`
(optional chaining yields a falsy `undefined` when the participant or
identity is absent). -/
def segmentRole (pid : Option String) : String :=
  if pid == some "server" ||
      (match pid with
        | some i => jsIncludes i "agent"
        | none => false) then
    "agent"
  else
    "user"

/-- The entry the `TranscriptionReceived` handler builds from one
segment. -/
def segmentToJson (pid : Option String) (seg : TranscriptionSegment) : Json :=
  .obj [("role", .str (segmentRole pid)),
        ("content", .str seg.text),
        ("id", .str seg.id),
        ("final", .bool seg.final),
        ("startTime", .num seg.startTime),
        ("endTime", .num seg.endTime)]

/-- The `transcript_updated` payload the `TranscriptionReceived`
handler emits for a batch of segments. -/
def transcriptionPayload (segs : List TranscriptionSegment)
    (pid : Option String) : Json :=
  mkTranscriptPayload (.arr (segs.map (segmentToJson pid)))

/-- `captureAudioSamples()`: stop if the session ended or the analyzer
was cleaned up (without touching the stale `captureAudioFrame`
handle), otherwise pull one PCM frame, emit `audio_stream`, and store
the `requestAnimationFrame` handle of the next tick. -/
def captureAudioSamples (s : ClientState) (frame : AudioFrame)
    (tickId : Nat) : ClientState × List VEvent :=
  if !s.connected || s.audioAnalyzer.isNone then
    (s, [])
  else
    ({ s with captureAudioFrame := some tickId }, [.audio_stream frame])

/-- Track kinds distinguished by the `TrackSubscribed` handler. -/
inductive TrackKind where
  | audio
  | video
deriving DecidableEq

/-- The `TrackSubscribed` handler: ignore non-audio tracks, attach the
track for playback (external side effect), and when raw audio is
enabled in the config the handlers closed over and the track is a
`RemoteAudioTrack`, create the analyzer (`initResult = some msg`
models `createAudioAnalyzerFromLiveKitTrack` throwing: the error is
emitted as `session_error` and the session continues) and start the
capture loop. -/
def trackSubscribedStep (s : ClientState) (kind : TrackKind)
    (remoteAudio : Bool) (initResult : Option String) (a : Analyzer)
    (frame : AudioFrame) (tickId : Nat) : ClientState × List VEvent :=
  match s.room with
  | none => (s, [])
  | some room =>
    if kind != TrackKind.audio then
      (s, [])
    else
      let s1 := { s with ghostSubscribed := true }
      if room.cfg.enableRawAudio.getD false && remoteAudio then
        match initResult with
        | some msg =>
          ({ s1 with ghostAnalyzerOk := false },
            [.session_error (.analyzerInit msg)])
        | none =>
          captureAudioSamples
            { s1 with audioAnalyzer := some a, ghostAnalyzerOk := true }
            frame tickId
      else
        (s1, [])

/-- One quiescent step of the controller: a public call or a complete
run of one inbound-signal handler or capture tick.  Transport signals
carry the data the environment supplies; they are delivered only by
the live room (a disconnected, dropped room no longer signals). -/
inductive Op where
  | initiate (cfg : SessionConfig) (env : InitEnv)
  | terminate
  | mute
  | unmute
  | roomDisconnected
  | reconnecting
  | reconnected
  | participantLeft (identity : String)
  | transcription (segs : List TranscriptionSegment) (pid : Option String)
  | dataReceived (payload : Option Json)
  | trackSubscribed (kind : TrackKind) (remoteAudio : Bool)
      (initResult : Option String) (a : Analyzer) (frame : AudioFrame)
      (tickId : Nat)
  | captureTick (frame : AudioFrame) (nextId : Nat)

/-- The state transition and emitted events of one quiescent step. -/
def step (op : Op) (s : ClientState) : ClientState × List VEvent :=
  match op with
  | .initiate cfg env =>
    let o := initiateSession s cfg env
    (o.state, o.events)
  | .terminate => terminateSession s
  | .mute => muteStep s
  | .unmute => muteStep s
  | .roomDisconnected =>
    match s.room with
    | none => (s, [])
    | some _ => if s.connected then terminateSession s else (s, [])
  | .reconnecting =>
    match s.room with
    | none => (s, [])
    | some _ => (s, [.connection_lost])
  | .reconnected =>
    match s.room with
    | none => (s, [])
    | some _ => (s, [.connection_restored])
  | .participantLeft identity =>
    match s.room with
    | none => (s, [])
    | some _ => if identity == "server" then terminateSession s else (s, [])
  | .transcription segs pid =>
    match s.room with
    | none => (s, [])
    | some _ => (s, [.transcript_updated (transcriptionPayload segs pid)])
  | .dataReceived p =>
    match s.room with
    | none => (s, [])
    | some _ => handleDataReceived s p
  | .trackSubscribed kind remoteAudio initResult a frame tickId =>
    trackSubscribedStep s kind remoteAudio initResult a frame tickId
  | .captureTick frame nextId =>
    match s.captureAudioFrame with
    | none => (s, [])
    | some _ => captureAudioSamples s frame nextId

/-- Run a sequence of quiescent steps from a state, collecting all
emitted events in order. -/
def runOps (s : ClientState) : List Op → ClientState × List VEvent
  | [] => (s, [])
  | op :: rest =>
    let (s1, evs1) := step op s
    let (s2, evs2) := runOps s1 rest
    (s2, evs1 ++ evs2)

/-- The externally meaningful actions `terminateSession` performs, used
to state in which order the cleanup happens. -/
inductive CleanupAction where
  | setConnectedFalse
  | clearAgentSpeaking
  | cancelCaptureTick
  | releaseAnalyzer
  | disconnectRoom
  | emitDisconnected
deriving DecidableEq, BEq

/-- The sequence of cleanup actions one `terminateSession()` call
performs, in source order: the state flags are reset first, then the
tick is cancelled, the analyzer released, the room disconnected, and
finally `session_disconnected` emitted if the session was connected.
The trace does not depend on whether the room disconnect fails,
because that failure is swallowed. -/
def terminateTrace (s : ClientState) (_disconnectFails : Bool) :
    List CleanupAction :=
  [.setConnectedFalse, .clearAgentSpeaking]
    ++ (if s.captureAudioFrame.isSome then [.cancelCaptureTick] else [])
    ++ (if s.audioAnalyzer.isSome then [.releaseAnalyzer] else [])
    ++ (if s.room.isSome then [.disconnectRoom] else [])
    ++ (if s.connected then [.emitDisconnected] else [])

/-- `terminateSession()` with the room-disconnect outcome made
explicit: the call's rejection (`disconnectFails`) is caught and
discarded, so the remaining steps always run. -/
def terminateSessionF (s : ClientState) (disconnectFails : Bool) :
    ClientState × List VEvent :=
  let wasConnected := s.connected
  let s1 := { s with connected := false, isAgentSpeaking := false }
  let s2 := { s1 with captureAudioFrame := none }
  let s3 := { s2 with audioAnalyzer := none }
  let s4 :=
    match s3.room with
    | none => s3
    | some _ =>
      let _disconnectOutcome : Except Unit Unit :=
        if disconnectFails then .error () else .ok ()
      { s3 with room := none }
  (s4, if wasConnected then [.session_disconnected] else [])

/-- Modelled from the spec (claim C5's reading): dispatch on the first
PRESENT of the four discriminator fields and read update entries from
the first PRESENT of the three transcript fields.  This is the claim's
normalizer, kept for comparison with `dataMessageStep`. -/
def specPresentKind (j : Json) : Option Json :=
  dispatchKeys.findSome? (fun k => getField j k)

/-- The claim's update entries: the first present transcript field,
defaulting to an empty list. -/
def specPresentEntries (j : Json) : Json :=
  (entryKeys.findSome? (fun k => getField j k)).getD (.arr [])

/-- The normalizer claim C5 describes, with "first present field"
semantics. -/
def specPresentNormalize (s : ClientState) (j : Json) :
    ClientState × List VEvent :=
  match specPresentKind j with
  | some (.str "metadata") => (s, [.session_metadata j])
  | some (.str "update") =>
    (s, [.transcript_updated (mkTranscriptPayload (specPresentEntries j))])
  | some (.str "agent_start_talking") =>
    ({ s with isAgentSpeaking := true }, [.agent_speech_started])
  | some (.str "agent_stop_talking") =>
    ({ s with isAgentSpeaking := false }, [.agent_speech_ended])
  | _ => (s, [])

/-- The amended normalizer: dispatch on the first TRUTHY of the four
discriminator fields (JavaScript `||` semantics), stated independently
of `dataMessageStep` through `List.findSome?` and `Option.filter`. -/
def specTruthyKind (j : Json) : Option Json :=
  dispatchKeys.findSome? (fun k => (getField j k).filter jsTruthy)

/-- The amended update entries: the first truthy transcript field,
defaulting to an empty list. -/
def specTruthyEntries (j : Json) : Json :=
  ((entryKeys.findSome? (fun k => (getField j k).filter jsTruthy)).getD
    (.arr []))

/-- The normalizer with "first truthy field" semantics; the amended
claim C5 says `bindDataEvents` implements exactly this. -/
def specTruthyNormalize (s : ClientState) (j : Json) :
    ClientState × List VEvent :=
  match specTruthyKind j with
  | some (.str "metadata") => (s, [.session_metadata j])
  | some (.str "update") =>
    (s, [.transcript_updated (mkTranscriptPayload (specTruthyEntries j))])
  | some (.str "agent_start_talking") =>
    ({ s with isAgentSpeaking := true }, [.agent_speech_started])
  | some (.str "agent_stop_talking") =>
    ({ s with isAgentSpeaking := false }, [.agent_speech_ended])
  | _ => (s, [])

/-- A state with nothing live: `SessionState == Idle` with no partial
resources surviving. -/
def IdleClean (s : ClientState) : Prop :=
  s.connected = false ∧ s.room = none ∧ s.audioAnalyzer = none ∧
    s.captureAudioFrame = none

/-- Whether raw audio is enabled in the config the live room's
handlers closed over. -/
def rawAudioOn (s : ClientState) : Bool :=
  match s.room with
  | some r => r.cfg.enableRawAudio.getD false
  | none => false

/-- The state invariant that actually holds in every reachable
quiescent state: Connected implies the room is live, and implies the
analyzer is live whenever its initialization succeeded in the current
session; Idle implies the agent-speaking flag is clear and no room,
analyzer or scheduled tick survives. -/
def Inv (s : ClientState) : Prop :=
  (s.connected = true → s.room.isSome = true) ∧
  (s.connected = true → s.ghostAnalyzerOk = true →
    s.audioAnalyzer.isSome = true) ∧
  (s.connected = false →
    s.isAgentSpeaking = false ∧ s.room = none ∧ s.audioAnalyzer = none ∧
      s.captureAudioFrame = none)

/-! ## Helper lemmas -/

theorem terminateSession_fst (s : ClientState) :
    (terminateSession s).1 =
      { s with
        connected := false
        isAgentSpeaking := false
        captureAudioFrame := none
        audioAnalyzer := none
        room := none } :=
  rfl

theorem terminateSession_idleClean (s : ClientState) :
    IdleClean (terminateSession s).1 :=
  ⟨rfl, rfl, rfl, rfl⟩

theorem terminateSession_snd (s : ClientState) :
    (terminateSession s).2 =
      if s.connected = true then [VEvent.session_disconnected] else [] := by
  cases h : s.connected <;> simp [terminateSession, h]

theorem terminateSession_of_clean (s : ClientState)
    (h : s.connected = false) (h2 : s.isAgentSpeaking = false)
    (h3 : s.captureAudioFrame = none) (h4 : s.audioAnalyzer = none)
    (h5 : s.room = none) : terminateSession s = (s, []) := by
  cases s
  simp_all [terminateSession]

theorem initiateSessionAux_no_session_error (s : ClientState)
    (cfg : SessionConfig) (env : InitEnv) (c : ErrCause) :
    VEvent.session_error c ∉ (initiateSessionAux s cfg env).2.1 := by
  unfold initiateSessionAux
  cases hc : s.connected <;>
    cases hm : env.micPermission <;>
    cases hcr : env.connectResult <;>
    cases hpr : env.publishResult <;>
    simp only [terminateSession] <;>
    split_ifs <;> simp_all

theorem initiateSessionAux_error_not_connected (s : ClientState)
    (cfg : SessionConfig) (env : InitEnv) (c : ErrCause)
    (h : (initiateSessionAux s cfg env).2.2 = some c) :
    (initiateSessionAux s cfg env).1.connected = false := by
  unfold initiateSessionAux at h ⊢
  cases hc : s.connected <;>
    cases hm : env.micPermission <;>
    cases hcr : env.connectResult <;>
    cases hpr : env.publishResult <;>
    simp only [hc, hm, hcr, hpr, terminateSession] at h ⊢ <;>
    split_ifs at h ⊢ <;> simp_all

theorem initiateSessionAux_ok_shape (s : ClientState) (cfg : SessionConfig)
    (env : InitEnv) (h : (initiateSessionAux s cfg env).2.2 = none) :
    (initiateSessionAux s cfg env).1.connected = true ∧
      (initiateSessionAux s cfg env).1.room.isSome = true ∧
      (initiateSessionAux s cfg env).1.ghostAnalyzerOk = false := by
  unfold initiateSessionAux at h ⊢
  cases hc : s.connected <;>
    cases hm : env.micPermission <;>
    cases hcr : env.connectResult <;>
    cases hpr : env.publishResult <;>
    simp only [hc, hm, hcr, hpr, terminateSession] at h ⊢ <;>
    split_ifs at h ⊢ <;> simp_all

theorem inv_terminate (s : ClientState) : Inv (terminateSession s).1 := by
  simp [terminateSession, Inv]

theorem inv_initiate (s : ClientState) (cfg : SessionConfig)
    (env : InitEnv) : Inv (initiateSession s cfg env).state := by
  rcases haux : initiateSessionAux s cfg env with ⟨s1, evs, oc⟩
  cases oc with
  | none =>
    have hs := initiateSessionAux_ok_shape s cfg env (by rw [haux])
    rw [haux] at hs
    simp only [initiateSession, haux]
    refine ⟨fun _ => hs.2.1, fun _ hok => ?_, fun hfalse => ?_⟩
    · rw [hs.2.2] at hok
      cases hok
    · rw [hs.1] at hfalse
      cases hfalse
  | some c =>
    simp only [initiateSession, haux]
    exact inv_terminate s1

theorem dataMessageStep_fields (s : ClientState) (j : Json) :
    (dataMessageStep s j).1.connected = s.connected ∧
      (dataMessageStep s j).1.room = s.room ∧
      (dataMessageStep s j).1.audioAnalyzer = s.audioAnalyzer ∧
      (dataMessageStep s j).1.captureAudioFrame = s.captureAudioFrame ∧
      (dataMessageStep s j).1.ghostSubscribed = s.ghostSubscribed ∧
      (dataMessageStep s j).1.ghostAnalyzerOk = s.ghostAnalyzerOk := by
  unfold dataMessageStep
  repeat' split
  all_goals exact ⟨rfl, rfl, rfl, rfl, rfl, rfl⟩

theorem dataMessageStep_events (s : ClientState) (j : Json) :
    (∀ c, VEvent.session_error c ∉ (dataMessageStep s j).2) ∧
      (∀ f, VEvent.audio_stream f ∉ (dataMessageStep s j).2) ∧
      VEvent.session_disconnected ∉ (dataMessageStep s j).2 := by
  unfold dataMessageStep
  repeat' split
  all_goals simp

theorem inv_captureAudioSamples (s : ClientState) (frame : AudioFrame)
    (tickId : Nat) (h : Inv s) : Inv (captureAudioSamples s frame tickId).1 := by
  obtain ⟨h1, h2, h3⟩ := h
  unfold captureAudioSamples
  split_ifs with hcond
  · exact ⟨h1, h2, h3⟩
  · simp only [Bool.or_eq_true, Bool.not_eq_true', not_or] at hcond
    have hct : s.connected = true := by
      cases hcs : s.connected
      · exact absurd hcs hcond.1
      · rfl
    refine ⟨fun _ => h1 hct, fun _ hok => h2 hct hok, fun hfalse => ?_⟩
    exact absurd hfalse hcond.1

theorem room_some_connected (s : ClientState) (h : Inv s) (r : Room)
    (hr : s.room = some r) : s.connected = true := by
  cases hc : s.connected
  · rcases h.2.2 hc with ⟨-, hroom, -, -⟩
    rw [hroom] at hr
    cases hr
  · rfl

theorem step_preserves_inv (op : Op) (s : ClientState) (h : Inv s) :
    Inv (step op s).1 := by
  obtain ⟨h1, h2, h3⟩ := h
  cases op with
  | initiate cfg env => exact inv_initiate s cfg env
  | terminate => exact inv_terminate s
  | mute => exact ⟨h1, h2, h3⟩
  | unmute => exact ⟨h1, h2, h3⟩
  | roomDisconnected =>
    simp only [step]
    split
    · exact ⟨h1, h2, h3⟩
    · split_ifs
      · exact inv_terminate s
      · exact ⟨h1, h2, h3⟩
  | reconnecting =>
    simp only [step]
    split <;> exact ⟨h1, h2, h3⟩
  | reconnected =>
    simp only [step]
    split <;> exact ⟨h1, h2, h3⟩
  | participantLeft identity =>
    simp only [step]
    split
    · exact ⟨h1, h2, h3⟩
    · split_ifs
      · exact inv_terminate s
      · exact ⟨h1, h2, h3⟩
  | transcription segs pid =>
    simp only [step]
    split <;> exact ⟨h1, h2, h3⟩
  | dataReceived p =>
    simp only [step]
    split
    · exact ⟨h1, h2, h3⟩
    · rename_i r hr
      have hc : s.connected = true := room_some_connected s ⟨h1, h2, h3⟩ r hr
      cases p with
      | none => exact ⟨h1, h2, h3⟩
      | some j =>
        have hf := dataMessageStep_fields s j
        simp only [handleDataReceived]
        refine ⟨fun _ => ?_, fun _ hok => ?_, fun hfalse => ?_⟩
        · rw [hf.2.1]
          exact h1 hc
        · rw [hf.2.2.1]
          rw [hf.2.2.2.2.2] at hok
          exact h2 hc hok
        · rw [hf.1, hc] at hfalse
          cases hfalse
  | trackSubscribed kind remoteAudio initResult a frame tickId =>
    simp only [step, trackSubscribedStep]
    split
    · exact ⟨h1, h2, h3⟩
    · rename_i r hr
      have hc : s.connected = true := room_some_connected s ⟨h1, h2, h3⟩ r hr
      split_ifs with hkind hraw
      · exact ⟨h1, h2, h3⟩
      · cases initResult with
        | some msg =>
          refine ⟨fun _ => ?_, fun _ hok => ?_, fun hfalse => ?_⟩
          · simpa using h1 hc
          · cases hok
          · rw [hc] at hfalse
            cases hfalse
        | none =>
          apply inv_captureAudioSamples
          refine ⟨fun _ => ?_, fun _ _ => rfl, fun hfalse => ?_⟩
          · simpa using h1 hc
          · rw [hc] at hfalse
            cases hfalse
      · refine ⟨fun _ => ?_, fun _ hok => ?_, fun hfalse => ?_⟩
        · simpa using h1 hc
        · simpa using h2 hc hok
        · rw [hc] at hfalse
          cases hfalse
  | captureTick frame nextId =>
    simp only [step]
    split
    · exact ⟨h1, h2, h3⟩
    · exact inv_captureAudioSamples s frame nextId ⟨h1, h2, h3⟩

theorem inv_initial : Inv initialState := by
  simp [Inv, initialState]

theorem inv_runOps (ops : List Op) :
    ∀ s : ClientState, Inv s → Inv (runOps s ops).1 := by
  induction ops with
  | nil => intro s h; exact h
  | cons op rest ih =>
    intro s h
    have hstep := step_preserves_inv op s h
    rcases hs : step op s with ⟨s1, evs1⟩
    rw [hs] at hstep
    have htail := ih s1 hstep
    rcases hr : runOps s1 rest with ⟨s2, evs2⟩
    rw [hr] at htail
    simp only [runOps, hs, hr]
    exact htail

/-! ## Claim C1 -/

/-- C1: every failing `initiateSession` call funnels through the single
emit-then-teardown-then-rethrow path: when the call rejects with cause
`c`, the event stream of the call carries `session_error c` (and no
`session_error` with any other cause), the teardown has already
completed when the caller observes the failure (the post-call state is
fully Idle with no partial resource surviving), and `session_error` is
the last event of the call (teardown emits nothing after it); when the
call succeeds no `session_error` is emitted at all. -/
theorem initiate_failure_contract (s : ClientState) (cfg : SessionConfig)
    (env : InitEnv) (c : ErrCause) :
    ((initiateSession s cfg env).result = .error c →
      IdleClean (initiateSession s cfg env).state ∧
      (initiateSession s cfg env).events.getLast? =
        some (.session_error c) ∧
      (∀ c', VEvent.session_error c' ∈ (initiateSession s cfg env).events →
        c' = c)) ∧
    ((initiateSession s cfg env).result = .ok () →
      VEvent.session_error c ∉ (initiateSession s cfg env).events) := by
  have hne := initiateSessionAux_no_session_error s cfg env
  have hnc := initiateSessionAux_error_not_connected s cfg env
  rcases haux : initiateSessionAux s cfg env with ⟨s1, evs, oc⟩
  rw [haux] at hne hnc
  cases oc with
  | none =>
    constructor
    · intro h
      simp [initiateSession, haux] at h
    · intro _
      simpa [initiateSession, haux] using hne c
  | some c0 =>
    have hc1 : s1.connected = false := hnc c0 rfl
    have hts : (terminateSession s1).2 = [] := by
      rw [terminateSession_snd, hc1]
      simp
    constructor
    · intro h
      have hco : c0 = c := by
        simp [initiateSession, haux] at h
        exact h
      subst hco
      refine ⟨?_, ?_, ?_⟩
      · simpa [initiateSession, haux] using
          terminateSession_idleClean s1
      · simp [initiateSession, haux, hts, List.getLast?_concat]
      · intro c' hc'
        simp [initiateSession, haux, hts] at hc'
        rcases hc' with hc' | hc'
        · exact absurd hc' (hne c')
        · exact hc'
    · intro h
      simp [initiateSession, haux] at h

/-- Witness for C1 at a concrete failing input: a missing token from
the initial state rejects with the configuration cause, the state is
fully Idle afterwards, and `session_error` is the last event. -/
theorem initiate_failure_contract_witness :
    IdleClean (initiateSession initialState
      ⟨none, none, none, none, none⟩ ⟨none, none, none⟩).state ∧
    (initiateSession initialState ⟨none, none, none, none, none⟩
      ⟨none, none, none⟩).events.getLast? =
        some (.session_error .configMissingToken) :=
  have h := (initiate_failure_contract initialState
    ⟨none, none, none, none, none⟩ ⟨none, none, none⟩
    .configMissingToken).1 rfl
  ⟨h.1, h.2.1⟩

/-! ## Claim C3 -/

/-- C3 counterexample: the claim says a missing-token call emits no
events at all, but the catch block of `initiateSession` emits
`session_error` even on the configuration failure; from the initial
state the call emits exactly that one event. -/
theorem noToken_emits_session_error :
    (initiateSession initialState ⟨none, none, none, none, none⟩
      ⟨none, none, none⟩).events = [.session_error .configMissingToken] ∧
    (initiateSession initialState ⟨none, none, none, none, none⟩
      ⟨none, none, none⟩).events ≠ [] :=
  ⟨rfl, List.cons_ne_nil _ _⟩

/-- C3 amended: for every config whose token is missing or empty,
`initiateSession` rejects with the configuration cause, performs no
transport or microphone work (the final state is exactly the result of
tearing down the entering state), leaves the state Idle, and emits
exactly `session_error` — preceded by `session_disconnected` when the
call found a connected session to tear down first. -/
theorem noToken_fails_fast (s : ClientState) (cfg : SessionConfig)
    (env : InitEnv) (h : tokenMissing cfg = true) :
    initiateSession s cfg env =
      { state := (terminateSession s).1
        events :=
          (if s.connected = true then [VEvent.session_disconnected] else [])
            ++ [.session_error .configMissingToken]
        result := .error .configMissingToken } := by
  cases hc : s.connected <;>
    simp [initiateSession, initiateSessionAux, terminateSession, h, hc]

/-- Witness for C3 amended at a concrete input: the empty-string token
from the initial state. -/
theorem noToken_fails_fast_witness :
    initiateSession initialState ⟨some "", none, none, none, none⟩
        ⟨none, none, none⟩ =
      { state := (terminateSession initialState).1
        events :=
          (if initialState.connected = true then
            [VEvent.session_disconnected] else [])
            ++ [.session_error .configMissingToken]
        result := .error .configMissingToken } :=
  noToken_fails_fast initialState ⟨some "", none, none, none, none⟩
    ⟨none, none, none⟩ rfl

/-! ## Claim C10 -/

/-- C10: a call to `initiateSession` made while Connected tears the
existing session down before the token is validated, so even a
missing-token call destroys the prior session: it emits
`session_disconnected` first, then `session_error`, rejects with the
configuration cause, and the final state is the torn-down one. -/
theorem connected_reinitiate_tears_down_first (s : ClientState)
    (cfg : SessionConfig) (env : InitEnv) (hc : s.connected = true)
    (ht : tokenMissing cfg = true) :
    initiateSession s cfg env =
      { state := (terminateSession s).1
        events := [.session_disconnected, .session_error .configMissingToken]
        result := .error .configMissingToken } := by
  simp [initiateSession, initiateSessionAux, terminateSession, hc, ht]

/-- Witness for C10 at a concrete connected state with a missing
token. -/
theorem connected_reinitiate_tears_down_first_witness :
    initiateSession
        ⟨false, none, some ⟨⟨some "t", none, none, none, none⟩⟩, true, none,
          false, false⟩
        ⟨none, none, none, none, none⟩ ⟨none, none, none⟩ =
      { state := (terminateSession
          ⟨false, none, some ⟨⟨some "t", none, none, none, none⟩⟩, true, none,
            false, false⟩).1
        events := [.session_disconnected, .session_error .configMissingToken]
        result := .error .configMissingToken } :=
  connected_reinitiate_tears_down_first
    ⟨false, none, some ⟨⟨some "t", none, none, none, none⟩⟩, true, none,
      false, false⟩
    ⟨none, none, none, none, none⟩ ⟨none, none, none⟩ rfl rfl

/-! ## Claim C2 -/

/-- The result of `n` successive `terminateSession` calls with no
intervening operation, with the events of each call listed
separately. -/
def terminateN : ClientState → Nat → ClientState × List (List VEvent)
  | s, 0 => (s, [])
  | s, n + 1 =>
    let (s1, e1) := terminateSession s
    let (s2, es) := terminateN s1 n
    (s2, e1 :: es)

theorem terminateN_not_connected (n : Nat) :
    ∀ s : ClientState, s.connected = false →
      (terminateN s n).2 = List.replicate n [] := by
  induction n with
  | zero => intro s _; rfl
  | succ n ih =>
    intro s h
    have h1 : (terminateSession s).2 = [] := by
      rw [terminateSession_snd, h]
      simp
    have h2 : (terminateSession s).1.connected = false := rfl
    rcases ht : terminateSession s with ⟨s1, e1⟩
    rw [ht] at h1 h2
    simp only at h1 h2
    subst h1
    rcases hrec : terminateN s1 n with ⟨s2, es⟩
    have := ih s1 h2
    rw [hrec] at this
    simp only at this
    subst this
    simp [terminateN, ht, hrec, List.replicate]

theorem terminateN_clean (n : Nat) :
    ∀ s : ClientState, s.connected = false → s.isAgentSpeaking = false →
      s.captureAudioFrame = none → s.audioAnalyzer = none → s.room = none →
      terminateN s n = (s, List.replicate n []) := by
  induction n with
  | zero => intro s _ _ _ _ _; rfl
  | succ n ih =>
    intro s h1 h2 h3 h4 h5
    have ht : terminateSession s = (s, []) :=
      terminateSession_of_clean s h1 h2 h3 h4 h5
    have := ih s h1 h2 h3 h4 h5
    simp [terminateN, ht, this, List.replicate]

/-- C2: `terminateSession` is unconditionally idempotent.  For every
starting state and every number `n` of successive calls with no
intervening operation, exactly the first call emits
`session_disconnected`, and only when the state was Connected at that
call; every other call emits nothing.  Moreover, in every reachable
quiescent state that is Idle, a `terminateSession` call (and any
sequence of them) changes no state and emits nothing. -/
theorem terminate_idempotent :
    (∀ (s : ClientState) (n : Nat),
      (terminateN s n).2 =
        if s.connected = true ∧ 0 < n then
          [VEvent.session_disconnected] :: List.replicate (n - 1) []
        else
          List.replicate n []) ∧
    (∀ (ops : List Op) (n : Nat),
      (runOps initialState ops).1.connected = false →
      terminateN (runOps initialState ops).1 n =
        ((runOps initialState ops).1, List.replicate n [])) := by
  constructor
  · intro s n
    cases hc : s.connected with
    | false =>
      rw [terminateN_not_connected n s hc]
      simp
    | true =>
      cases n with
      | zero => simp [terminateN]
      | succ n =>
        have h2 : (terminateSession s).1.connected = false := rfl
        have hes := terminateN_not_connected n (terminateSession s).1 h2
        have he1 : (terminateSession s).2 = [VEvent.session_disconnected] := by
          rw [terminateSession_snd, hc]
          simp
        have hstep : (terminateN s (n + 1)).2 =
            (terminateSession s).2 :: (terminateN (terminateSession s).1 n).2 := by
          simp only [terminateN]
        rw [hstep, he1, hes]
        simp [hc]
  · intro ops n h
    have hinv := inv_runOps ops initialState inv_initial
    rcases hinv.2.2 h with ⟨h2, h3, h4, h5⟩
    exact terminateN_clean n _ h h2 h5 h4 h3

/-- Witness for C2 at concrete inputs: three calls from a connected
state emit `session_disconnected` exactly once, and two calls from the
freshly constructed (reachable, Idle) client change nothing. -/
theorem terminate_idempotent_witness :
    (terminateN
        ⟨false, none, some ⟨⟨some "t", none, none, none, none⟩⟩, true, none,
          false, false⟩ 3).2 =
      (if (⟨false, none, some ⟨⟨some "t", none, none, none, none⟩⟩, true,
            none, false, false⟩ : ClientState).connected = true ∧ 0 < 3 then
        [VEvent.session_disconnected] :: List.replicate (3 - 1) []
      else
        List.replicate 3 []) ∧
    terminateN (runOps initialState []).1 2 =
      ((runOps initialState []).1, List.replicate 2 []) :=
  ⟨terminate_idempotent.1
      ⟨false, none, some ⟨⟨some "t", none, none, none, none⟩⟩, true, none,
        false, false⟩ 3,
    terminate_idempotent.2 [] 2 rfl⟩

/-! ## Claim C4 -/

/-- C4 counterexample: a reachable quiescent state in which the session
is Connected, raw audio was enabled for the session, a remote audio
track was subscribed — yet the audio analyzer is NOT live, because its
initialization threw (`createAudioAnalyzerFromLiveKitTrack` failing is
emitted as `session_error` and the session deliberately continues
without raw audio).  The claim's invariant asserts the analyzer must
be live in this state, so the claim is false on the code. -/
theorem analyzer_init_failure_breaks_invariant :
    ((runOps initialState
        [.initiate ⟨some "tok", none, none, none, some true⟩
          ⟨none, none, none⟩,
         .trackSubscribed .audio true (some "AudioContext failed") ⟨0⟩ ⟨0⟩
          0]).1.connected = true ∧
      rawAudioOn (runOps initialState
        [.initiate ⟨some "tok", none, none, none, some true⟩
          ⟨none, none, none⟩,
         .trackSubscribed .audio true (some "AudioContext failed") ⟨0⟩ ⟨0⟩
          0]).1 = true ∧
      (runOps initialState
        [.initiate ⟨some "tok", none, none, none, some true⟩
          ⟨none, none, none⟩,
         .trackSubscribed .audio true (some "AudioContext failed") ⟨0⟩ ⟨0⟩
          0]).1.ghostSubscribed = true) ∧
    (runOps initialState
        [.initiate ⟨some "tok", none, none, none, some true⟩
          ⟨none, none, none⟩,
         .trackSubscribed .audio true (some "AudioContext failed") ⟨0⟩ ⟨0⟩
          0]).1.audioAnalyzer = none :=
  ⟨⟨rfl, rfl, rfl⟩, rfl⟩

/-- C4 amended: in every quiescent state reachable through the public
operations and inbound-signal handlers, Connected implies the
transport Room is live — and implies the analyzer is live whenever its
initialization succeeded in the current session (the unamended
analyzer clause fails when initialization throws) — while Idle implies
the Room is absent, the analyzer is absent, no capture tick is
scheduled, and the agent-speaking flag is clear. -/
theorem reachable_state_invariant (ops : List Op) :
    Inv (runOps initialState ops).1 :=
  inv_runOps ops initialState inv_initial

/-- Witness for C4 amended at a concrete operation sequence: a full
connect, subscribe, tick, terminate cycle ends in a state satisfying
the invariant. -/
theorem reachable_state_invariant_witness :
    Inv (runOps initialState
      [.initiate ⟨some "tok", none, none, none, some true⟩ ⟨none, none, none⟩,
       .trackSubscribed .audio true none ⟨1⟩ ⟨2⟩ 3,
       .captureTick ⟨4⟩ 5,
       .terminate]).1 :=
  reachable_state_invariant
    [.initiate ⟨some "tok", none, none, none, some true⟩ ⟨none, none, none⟩,
     .trackSubscribed .audio true none ⟨1⟩ ⟨2⟩ 3,
     .captureTick ⟨4⟩ 5,
     .terminate]

/-! ## Claim C5 -/

theorem readProp_ok (j : Json) (k : String) (hj : j ≠ Json.null) :
    readProp j k = .ok (getField j k) := by
  cases j
  case null => exact absurd rfl hj
  all_goals rfl

theorem firstTruthyE_ok (j : Json) (hj : j ≠ Json.null) :
    ∀ keys : List String,
      firstTruthyE j keys =
        .ok (keys.findSome? fun k => (getField j k).filter jsTruthy) := by
  intro keys
  induction keys with
  | nil => rfl
  | cons k ks ih =>
    simp only [firstTruthyE, readProp_ok j k hj, List.findSome?]
    cases hg : getField j k with
    | none => simpa [Option.filter] using ih
    | some v =>
      cases ht : jsTruthy v with
      | false => simpa [Option.filter, ht] using ih
      | true => simp [Option.filter, ht]

/-- The message used to separate "first present field" from "first
truthy field": `event_type` is present but falsy, `type` is `update`;
`transcript` is present but `null`, `messages` holds one entry. -/
def presenceProbe : Json :=
  .obj [("event_type", .str ""), ("type", .str "update"),
        ("transcript", .null),
        ("messages", .arr [.obj [("role", .str "user"),
                                 ("content", .str "hi")]])]

/-- C5 counterexample: on `presenceProbe` the claim's "first present
field" reading dispatches on the present-but-empty `event_type` (an
unrecognized kind, hence no event) and would take the entries from the
present-but-null `transcript`; the code dispatches on the first truthy
field `type = "update"` and takes the entries from the first truthy
field `messages`, emitting a `transcript_updated` event.  The two
normalizers disagree on this successfully parsed message. -/
theorem data_dispatch_presence_counterexample :
    dataMessageStep initialState presenceProbe =
      (initialState,
        [.transcript_updated (mkTranscriptPayload
          (.arr [.obj [("role", .str "user"), ("content", .str "hi")]]))]) ∧
    specPresentNormalize initialState presenceProbe = (initialState, []) ∧
    (dataMessageStep initialState presenceProbe).2 ≠
      (specPresentNormalize initialState presenceProbe).2 := by
  refine ⟨rfl, rfl, ?_⟩
  intro h
  rw [show (dataMessageStep initialState presenceProbe).2 =
      [VEvent.transcript_updated (mkTranscriptPayload
        (.arr [.obj [("role", .str "user"), ("content", .str "hi")]]))]
    from rfl] at h
  rw [show (specPresentNormalize initialState presenceProbe).2 = [] from rfl]
    at h
  exact List.noConfusion h

/-- C5 amended: the reaction to every successfully parsed data message
is determined by the first TRUTHY (JavaScript `||` semantics: missing,
`null`, `false`, `0` and the empty string are skipped) of the fields
`event_type`, `type`, `eventType`, `event`; kind `metadata` emits
`session_metadata` with the whole decoded value, kind `update` emits
`transcript_updated` with entries from the first truthy of
`transcript`, `transcripts`, `messages` (defaulting to an empty list),
`agent_start_talking` / `agent_stop_talking` set the agent-speaking
flag and emit the speech events, and anything else produces no event
and no state change: `bindDataEvents` coincides with the independently
stated truthy-chain normalizer on every message. -/
theorem data_dispatch_truthy_refinement (s : ClientState) (j : Json) :
    dataMessageStep s j = specTruthyNormalize s j := by
  by_cases hj : j = Json.null
  · subst hj
    rfl
  · unfold dataMessageStep specTruthyNormalize specTruthyKind
      specTruthyEntries
    rw [firstTruthyE_ok j hj dispatchKeys, firstTruthyE_ok j hj entryKeys]

/-! ## Claim C6 -/

/-- C6: a data-channel payload that fails text decoding or JSON
parsing (`payload = none`) is silently discarded; and for every
payload, parsed or not, the handler emits neither `session_error` nor
`session_disconnected` and leaves the connection state, room, analyzer
and scheduled tick untouched — interpretation errors (such as the
property-access `TypeError` on a parsed `null`) are caught locally and
never become a `session_error` or a teardown. -/
theorem data_noise_is_silent (s : ClientState) (p : Option Json) :
    (p = none → handleDataReceived s p = (s, [])) ∧
    (∀ c, VEvent.session_error c ∉ (handleDataReceived s p).2) ∧
    VEvent.session_disconnected ∉ (handleDataReceived s p).2 ∧
    (handleDataReceived s p).1.connected = s.connected ∧
    (handleDataReceived s p).1.room = s.room ∧
    (handleDataReceived s p).1.audioAnalyzer = s.audioAnalyzer ∧
    (handleDataReceived s p).1.captureAudioFrame = s.captureAudioFrame := by
  cases p with
  | none =>
    refine ⟨fun _ => rfl, ?_, ?_, rfl, rfl, rfl, rfl⟩ <;> simp [handleDataReceived]
  | some j =>
    have hf := dataMessageStep_fields s j
    have he := dataMessageStep_events s j
    exact ⟨fun h => Option.noConfusion h, he.1, he.2.2, hf.1, hf.2.1,
      hf.2.2.1, hf.2.2.2.1⟩

/-- Witness for C6 at concrete inputs: an unparseable payload is
dropped without a trace, and the parsed `null` payload (whose
interpretation throws and is caught) emits no `session_error`. -/
theorem data_noise_is_silent_witness :
    handleDataReceived initialState none = (initialState, []) ∧
    (∀ c, VEvent.session_error c ∉
      (handleDataReceived initialState (some Json.null)).2) :=
  ⟨(data_noise_is_silent initialState none).1 rfl,
    (data_noise_is_silent initialState (some Json.null)).2.1⟩

/-! ## Claim C7 -/

/-- A state in which raw audio can never have been requested: no
analyzer is live and any live room's handlers closed over a config
with raw audio disabled. -/
def RawOffState (s : ClientState) : Prop :=
  s.audioAnalyzer = none ∧
    ∀ r : Room, s.room = some r → r.cfg.enableRawAudio.getD false = false

/-- Restriction of an operation sequence to sessions with raw audio
disabled: every `initiateSession` in it carries a config whose
`enableRawAudio` is falsy. -/
def rawOffOp : Op → Prop
  | .initiate cfg _ => cfg.enableRawAudio.getD false = false
  | _ => True

theorem initiateSessionAux_no_audio_stream (s : ClientState)
    (cfg : SessionConfig) (env : InitEnv) (f : AudioFrame) :
    VEvent.audio_stream f ∉ (initiateSessionAux s cfg env).2.1 := by
  unfold initiateSessionAux
  cases hc : s.connected <;>
    cases hm : env.micPermission <;>
    cases hcr : env.connectResult <;>
    cases hpr : env.publishResult <;>
    simp only [terminateSession] <;>
    split_ifs <;> simp_all

theorem initiateSessionAux_ok_shape2 (s : ClientState)
    (cfg : SessionConfig) (env : InitEnv)
    (h : (initiateSessionAux s cfg env).2.2 = none) :
    (initiateSessionAux s cfg env).1.room = some { cfg := cfg } ∧
      (initiateSessionAux s cfg env).1.audioAnalyzer =
        (if s.connected = true then none else s.audioAnalyzer) := by
  unfold initiateSessionAux at h ⊢
  cases hc : s.connected <;>
    cases hm : env.micPermission <;>
    cases hcr : env.connectResult <;>
    cases hpr : env.publishResult <;>
    simp only [hc, hm, hcr, hpr, terminateSession] at h ⊢ <;>
    split_ifs at h ⊢ <;> simp_all

theorem terminateSession_no_audio_stream (s : ClientState)
    (f : AudioFrame) : VEvent.audio_stream f ∉ (terminateSession s).2 := by
  rw [terminateSession_snd]
  split_ifs <;> simp

theorem rawoff_terminate (s : ClientState) :
    RawOffState (terminateSession s).1 ∧
      ∀ f, VEvent.audio_stream f ∉ (terminateSession s).2 := by
  refine ⟨⟨rfl, fun r h => Option.noConfusion h⟩, fun f => ?_⟩
  rw [terminateSession_snd]
  split_ifs <;> simp

theorem rawoff_initiate (s : ClientState) (cfg : SessionConfig)
    (env : InitEnv) (hs : RawOffState s)
    (hcfg : cfg.enableRawAudio.getD false = false) :
    RawOffState (initiateSession s cfg env).state ∧
      ∀ f, VEvent.audio_stream f ∉ (initiateSession s cfg env).events := by
  have hnast := initiateSessionAux_no_audio_stream s cfg env
  rcases haux : initiateSessionAux s cfg env with ⟨s1, evs, oc⟩
  rw [haux] at hnast
  cases oc with
  | none =>
    have hshape := initiateSessionAux_ok_shape2 s cfg env (by rw [haux])
    rw [haux] at hshape
    simp only at hshape
    constructor
    · simp only [initiateSession, haux]
      constructor
      · rw [hshape.2]
        split_ifs
        · rfl
        · exact hs.1
      · intro r hr
        rw [hshape.1] at hr
        cases hr
        exact hcfg
    · intro f
      simpa [initiateSession, haux] using hnast f
  | some c =>
    have hterm := rawoff_terminate s1
    constructor
    · simpa [initiateSession, haux] using hterm.1
    · intro f
      simp only [initiateSession, haux, List.mem_append]
      rintro ((h | h) | h)
      · exact hnast f h
      · simp at h
      · exact hterm.2 f h

theorem rawoff_step (op : Op) (s : ClientState) (hs : RawOffState s)
    (hop : rawOffOp op) :
    RawOffState (step op s).1 ∧
      ∀ f, VEvent.audio_stream f ∉ (step op s).2 := by
  cases op with
  | initiate cfg env => exact rawoff_initiate s cfg env hs hop
  | terminate => exact rawoff_terminate s
  | mute => exact ⟨hs, by simp [step, muteStep]⟩
  | unmute => exact ⟨hs, by simp [step, muteStep]⟩
  | roomDisconnected =>
    simp only [step]
    split
    · exact ⟨hs, by simp⟩
    · split_ifs
      · exact rawoff_terminate s
      · exact ⟨hs, by simp⟩
  | reconnecting =>
    simp only [step]
    split <;> exact ⟨hs, by simp⟩
  | reconnected =>
    simp only [step]
    split <;> exact ⟨hs, by simp⟩
  | participantLeft identity =>
    simp only [step]
    split
    · exact ⟨hs, by simp⟩
    · split_ifs
      · exact rawoff_terminate s
      · exact ⟨hs, by simp⟩
  | transcription segs pid =>
    simp only [step]
    split <;> exact ⟨hs, by simp⟩
  | dataReceived p =>
    simp only [step]
    split
    · exact ⟨hs, by simp⟩
    · cases p with
      | none => exact ⟨hs, by simp [handleDataReceived]⟩
      | some j =>
        have hf := dataMessageStep_fields s j
        have he := dataMessageStep_events s j
        simp only [handleDataReceived]
        refine ⟨⟨?_, ?_⟩, he.2.1⟩
        · rw [hf.2.2.1]
          exact hs.1
        · intro r hr
          rw [hf.2.1] at hr
          exact hs.2 r hr
  | trackSubscribed kind remoteAudio initResult a frame tickId =>
    simp only [step, trackSubscribedStep]
    split
    · exact ⟨hs, by simp⟩
    · rename_i r hr
      have hoff : r.cfg.enableRawAudio.getD false = false := hs.2 r hr
      split_ifs with hkind hraw
      · exact ⟨hs, by simp⟩
      · rw [hoff] at hraw
        simp at hraw
      · exact ⟨⟨hs.1, hs.2⟩, by simp⟩
  | captureTick frame nextId =>
    simp only [step]
    split
    · exact ⟨hs, by simp⟩
    · have hnone : s.audioAnalyzer.isNone = true := by
        rw [hs.1]
        rfl
      unfold captureAudioSamples
      rw [hnone]
      simp only [Bool.or_true, if_true]
      exact ⟨hs, by simp⟩

theorem rawoff_runOps (ops : List Op) :
    ∀ s : ClientState, RawOffState s → (∀ op ∈ ops, rawOffOp op) →
      RawOffState (runOps s ops).1 ∧
        ∀ f, VEvent.audio_stream f ∉ (runOps s ops).2 := by
  induction ops with
  | nil => intro s hs _; exact ⟨hs, by simp [runOps]⟩
  | cons op rest ih =>
    intro s hs hops
    have h1 := rawoff_step op s hs (hops op (by simp))
    rcases hss : step op s with ⟨s1, evs1⟩
    rw [hss] at h1
    have h2 := ih s1 h1.1 (fun o ho => hops o (by simp [ho]))
    rcases hrr : runOps s1 rest with ⟨s2, evs2⟩
    rw [hrr] at h2
    simp only [runOps, hss, hrr]
    refine ⟨h2.1, fun f => ?_⟩
    simp only [List.mem_append]
    rintro (h | h)
    · exact h1.2 f h
    · exact h2.2 f h

/-- C7: on each capture tick, if the session is no longer Connected or
the analyzer has been released, the loop returns without emitting and
without scheduling another tick; otherwise it pulls exactly one frame,
emits it as `audio_stream`, and stores exactly one next scheduled
tick.  Consequently, over any sequence of operations in which every
session was initiated with raw audio disabled, no `audio_stream` event
is ever emitted, regardless of transport activity. -/
theorem capture_loop_contract :
    (∀ (s : ClientState) (frame : AudioFrame) (tickId : Nat),
      (¬(s.connected = true ∧ s.audioAnalyzer.isSome = true) →
        captureAudioSamples s frame tickId = (s, [])) ∧
      (s.connected = true ∧ s.audioAnalyzer.isSome = true →
        captureAudioSamples s frame tickId =
          ({ s with captureAudioFrame := some tickId },
            [.audio_stream frame]))) ∧
    (∀ ops : List Op, (∀ op ∈ ops, rawOffOp op) →
      ∀ f, VEvent.audio_stream f ∉ (runOps initialState ops).2) := by
  constructor
  · intro s frame tickId
    constructor
    · intro h
      have hcond : (!s.connected || s.audioAnalyzer.isNone) = true := by
        cases hc : s.connected <;> cases hA : s.audioAnalyzer <;>
          simp_all
      simp [captureAudioSamples, hcond]
    · rintro ⟨hc, hA⟩
      have hcond : (!s.connected || s.audioAnalyzer.isNone) = false := by
        cases hA' : s.audioAnalyzer <;> simp_all
      simp [captureAudioSamples, hcond]
  · intro ops hops f
    exact (rawoff_runOps ops initialState
      ⟨rfl, fun r h => Option.noConfusion h⟩ hops).2 f

/-- Witness for C7 at concrete inputs: a live loop state emits one
frame and schedules the next tick, and a raw-audio-disabled session
followed by a subscribed remote audio track and a pending tick never
emits `audio_stream`. -/
theorem capture_loop_contract_witness :
    captureAudioSamples
        ⟨false, some ⟨5⟩, some ⟨⟨some "t", none, none, none, some true⟩⟩,
          true, none, true, true⟩ ⟨9⟩ 4 =
      ({ (⟨false, some ⟨5⟩, some ⟨⟨some "t", none, none, none, some true⟩⟩,
            true, none, true, true⟩ : ClientState) with
          captureAudioFrame := some 4 },
        [.audio_stream ⟨9⟩]) ∧
    VEvent.audio_stream ⟨9⟩ ∉
      (runOps initialState
        [.initiate ⟨some "t", none, none, none, some false⟩ ⟨none, none, none⟩,
         .trackSubscribed .audio true none ⟨5⟩ ⟨9⟩ 4,
         .captureTick ⟨9⟩ 5]).2 :=
  ⟨(capture_loop_contract.1
      ⟨false, some ⟨5⟩, some ⟨⟨some "t", none, none, none, some true⟩⟩, true,
        none, true, true⟩ ⟨9⟩ 4).2 ⟨rfl, rfl⟩,
    capture_loop_contract.2
      [.initiate ⟨some "t", none, none, none, some false⟩ ⟨none, none, none⟩,
       .trackSubscribed .audio true none ⟨5⟩ ⟨9⟩ 4,
       .captureTick ⟨9⟩ 5]
      (by
        intro op hop
        simp only [List.mem_cons, List.not_mem_nil, or_false] at hop
        rcases hop with h | h | h <;> subst h <;> trivial)
      ⟨9⟩⟩

/-! ## Claim C8 -/

/-- C8 counterexample: from a fully populated connected state, the
cleanup trace of `terminateSession` resets the state flags FIRST and
only then cancels the tick, releases the analyzer and disconnects the
room — the claim's order (cancel, release, disconnect, then reset) is
violated: the reset action does not come after the cancel action. -/
theorem teardown_order_counterexample :
    terminateTrace
        ⟨false, some ⟨0⟩, some ⟨⟨some "t", none, none, none, some true⟩⟩,
          true, some 1, false, false⟩ false =
      [.setConnectedFalse, .clearAgentSpeaking, .cancelCaptureTick,
        .releaseAnalyzer, .disconnectRoom, .emitDisconnected] ∧
    ¬((terminateTrace
        ⟨false, some ⟨0⟩, some ⟨⟨some "t", none, none, none, some true⟩⟩,
          true, some 1, false, false⟩ false).indexOf
        CleanupAction.cancelCaptureTick <
      (terminateTrace
        ⟨false, some ⟨0⟩, some ⟨⟨some "t", none, none, none, some true⟩⟩,
          true, some 1, false, false⟩ false).indexOf
        CleanupAction.setConnectedFalse) := by
  constructor
  · rfl
  · decide

/-- C8 amended: `terminateSession` performs its cleanup steps in the
fixed order reset-state-flags first, then cancel the scheduled capture
tick, release the audio analyzer, disconnect the transport room, and
finally emit `session_disconnected` when it was connected (every trace
is a sublist of that canonical order and always starts with the two
resets); a room-disconnect failure is swallowed and changes neither
the resulting state, the emitted events, nor the trace, and the final
state is always fully Idle. -/
theorem teardown_order_and_tolerance (s : ClientState) (b : Bool) :
    terminateSessionF s b = terminateSession s ∧
    List.Sublist (terminateTrace s b)
      [CleanupAction.setConnectedFalse, .clearAgentSpeaking,
        .cancelCaptureTick, .releaseAnalyzer, .disconnectRoom,
        .emitDisconnected] ∧
    (terminateTrace s b).take 2 =
      [.setConnectedFalse, .clearAgentSpeaking] ∧
    terminateTrace s b = terminateTrace s (!b) ∧
    IdleClean (terminateSession s).1 := by
  refine ⟨?_, ?_, rfl, rfl, terminateSession_idleClean s⟩
  · cases hr : s.room <;> simp [terminateSessionF, terminateSession, hr]
  · unfold terminateTrace
    split_ifs <;> decide

/-- Witness for C8 amended at a concrete populated state, under a
failing room disconnect. -/
theorem teardown_order_and_tolerance_witness :
    terminateSessionF
        ⟨true, some ⟨2⟩, some ⟨⟨some "t", none, none, none, some true⟩⟩,
          true, some 7, true, true⟩ true =
      terminateSession
        ⟨true, some ⟨2⟩, some ⟨⟨some "t", none, none, none, some true⟩⟩,
          true, some 7, true, true⟩ ∧
    IdleClean (terminateSession
      ⟨true, some ⟨2⟩, some ⟨⟨some "t", none, none, none, some true⟩⟩,
        true, some 7, true, true⟩).1 :=
  have h := teardown_order_and_tolerance
    ⟨true, some ⟨2⟩, some ⟨⟨some "t", none, none, none, some true⟩⟩, true,
      some 7, true, true⟩ true
  ⟨h.1, h.2.2.2.2⟩

/-! ## Claim C9 -/

theorem segmentRole_agent_iff (pid : Option String) :
    segmentRole pid = "agent" ↔
      (pid = some "server" ∨
        ∃ i, pid = some i ∧ "agent".toList <:+: i.toList) := by
  unfold segmentRole jsIncludes
  cases pid with
  | none => simp
  | some i =>
    by_cases h1 : i = "server"
    · subst h1
      simp
    · by_cases h2 : "agent".toList <:+: i.toList <;> simp [h1, h2]

theorem segmentRole_user_of_not_agent (pid : Option String) :
    segmentRole pid = "user" ↔ ¬segmentRole pid = "agent" := by
  unfold segmentRole
  split_ifs <;> simp

/-- C9: the `TranscriptionReceived` handler emits exactly one
`transcript_updated` event carrying one entry per segment, and an
entry's role is `"agent"` precisely when the originating participant's
identity equals `"server"` or contains the substring `"agent"`
(case-sensitive), `"user"` otherwise; the segment's text is carried
verbatim as the entry's content. -/
theorem transcription_role_attribution (s : ClientState) (r : Room)
    (pid : Option String) (segs : List TranscriptionSegment)
    (hr : s.room = some r) :
    step (.transcription segs pid) s =
      (s, [.transcript_updated (transcriptionPayload segs pid)]) ∧
    ∀ seg : TranscriptionSegment,
      getField (segmentToJson pid seg) "content" = some (.str seg.text) ∧
      (getField (segmentToJson pid seg) "role" = some (.str "agent") ↔
        (pid = some "server" ∨
          ∃ i, pid = some i ∧ "agent".toList <:+: i.toList)) ∧
      (getField (segmentToJson pid seg) "role" = some (.str "user") ↔
        ¬(pid = some "server" ∨
          ∃ i, pid = some i ∧ "agent".toList <:+: i.toList)) := by
  constructor
  · simp [step, hr]
  · intro seg
    have hrole : getField (segmentToJson pid seg) "role" =
        some (.str (segmentRole pid)) := rfl
    have hcontent : getField (segmentToJson pid seg) "content" =
        some (.str seg.text) := rfl
    refine ⟨hcontent, ?_, ?_⟩
    · rw [hrole]
      rw [← segmentRole_agent_iff pid]
      constructor
      · intro h
        injection h with h
        injection h
      · intro h
        rw [h]
    · rw [hrole]
      rw [← segmentRole_agent_iff pid, ← segmentRole_user_of_not_agent pid]
      constructor
      · intro h
        injection h with h
        injection h
      · intro h
        rw [h]

/-- Witness for C9 at a concrete input: a participant whose identity
contains "agent" yields an agent-role entry with the text carried
verbatim. -/
theorem transcription_role_attribution_witness :
    step (.transcription [⟨"id1", "hello", true, 0, 1⟩]
        (some "voice-agent-2"))
      ⟨false, none, some ⟨⟨some "t", none, none, none, none⟩⟩, true, none,
        false, false⟩ =
      (⟨false, none, some ⟨⟨some "t", none, none, none, none⟩⟩, true, none,
        false, false⟩,
        [.transcript_updated (transcriptionPayload
          [⟨"id1", "hello", true, 0, 1⟩] (some "voice-agent-2"))]) ∧
    getField (segmentToJson (some "voice-agent-2")
        ⟨"id1", "hello", true, 0, 1⟩) "role" = some (.str "agent") ∧
    getField (segmentToJson (some "voice-agent-2")
        ⟨"id1", "hello", true, 0, 1⟩) "content" = some (.str "hello") :=
  have h := transcription_role_attribution
    ⟨false, none, some ⟨⟨some "t", none, none, none, none⟩⟩, true, none,
      false, false⟩
    ⟨⟨some "t", none, none, none, none⟩⟩ (some "voice-agent-2")
    [⟨"id1", "hello", true, 0, 1⟩] rfl
  ⟨h.1,
    ((h.2 ⟨"id1", "hello", true, 0, 1⟩).2.1).mpr
      (Or.inr ⟨"voice-agent-2", rfl, by decide⟩),
    (h.2 ⟨"id1", "hello", true, 0, 1⟩).1⟩

end Verbex
